import Mathlib

/-!
Shallow embedding of `seo_optimizer_gui.py` (SEO Description Optimizer).

Pandas cell values are modelled by `CellValue` (a string, a number, or a
missing/NaN cell).  A loaded dataframe is a `Sheet`: a list of column names
plus a list of rows, each row a list of cells indexed positionally by the
column list (pandas column lookup takes the first column with a matching
name, which `colIdx` reproduces).

The external OpenAI chat-completion call is modelled by a function
`api : String → Except String String` mapping the user prompt to either the
returned completion text or an error; `make_seo_friendly` additionally
reports (as a `Bool`) whether the external call was performed, so that
"issues no external call" is expressible.  Python `str.capitalize()` (first
character uppercased, all remaining characters lowercased) is `pyCapitalize`;
Python `str.strip()` is `pyStrip`.
-/

namespace SEOOpt

/-- A pandas cell: a string, a number, or a missing value (NaN). -/
inductive CellValue where
  | str (s : String)
  | num (n : Int)
  | nan
deriving DecidableEq, Repr

/-- Python `str(cell)` as pandas would render the cell. -/
def cellToStr : CellValue → String
  | .str s => s
  | .num n => toString n
  | .nan => "nan"

/-- `isinstance(x, str)` on a cell. -/
def isStrCell : CellValue → Bool
  | .str _ => true
  | _ => false

/-- Python `str.strip()`: remove leading and trailing whitespace.
(Structurally recursive so that concrete instances evaluate.) -/
def pyStrip (s : String) : String :=
  String.mk (((s.data.dropWhile Char.isWhitespace).reverse.dropWhile
    Char.isWhitespace).reverse)

/-- Python `str.capitalize()`: first character uppercased, the remaining
characters lowercased (ASCII model). -/
def pyCapitalize (s : String) : String :=
  match s.data with
  | [] => ""
  | c :: cs => String.mk (c.toUpper :: cs.map Char.toLower)

/-- The operation the spec words describe: uppercase the first character and
leave every other character unchanged.  Used only to state the spec claims,
for comparison with `pyCapitalize`. -/
def specCapFirst (s : String) : String :=
  match s.data with
  | [] => ""
  | c :: cs => String.mk (c.toUpper :: cs)

/-- Embedding of `make_seo_friendly(description, seo_prompt)` (lines 32-51).
Returns the produced string together with a flag recording whether the
external text-generation call was performed.  The Python function catches
every exception of the call, so the embedding is a total function. -/
def make_seo_friendly (api : String → Except String String)
    (description : CellValue) (seo_prompt : String) : String × Bool :=
  match description with
  | .str s =>
    if pyStrip s = "" then ("No description provided.", false)
    else
      match api (seo_prompt ++ ": \x27" ++ s ++ "\x27") with
      | .ok content => (pyCapitalize (pyStrip content), true)
      | .error _ => (pyCapitalize s, true)
  | _ => ("No description provided.", false)

/-- Index of the first column with the given name (pandas `df.columns`
lookup); `none` when the column is absent. -/
def colIdx : List String → String → Option Nat
  | [], _ => none
  | c :: cs, target =>
    if c = target then some 0 else (colIdx cs target).map (· + 1)

/-- Read the cell of `row` in column `c` (`df.at[row, c]`); `.nan` when the
column is absent or the row is short. -/
def getCellD (cols : List String) (row : List CellValue) (c : String) : CellValue :=
  match colIdx cols c with
  | none => .nan
  | some i => row.getD i .nan

/-- A loaded dataframe: ordered column names and rows of cells. -/
structure Sheet where
  columns : List String
  rows : List (List CellValue)
deriving DecidableEq, Repr

/-- One iteration of the loop at lines 237-240: read the `Description` cell,
transform it, and write the result back into the same cell
(`df.at[idx, "Description"] = optimized`). -/
def rewriteRow (transform : CellValue → String → String × Bool)
    (cols : List String) (sp : String) (row : List CellValue) : List CellValue :=
  match colIdx cols "Description" with
  | none => row
  | some i => row.set i (.str (transform (row.getD i .nan) sp).fst)

/-- Line 234: `seo_prompt = self.prompt_entry.get().strip() or
df.loc[0, "Name"].strip()`.  When the entry text trims to the empty string,
row zero of the `Name` column is consulted: a missing row raises `KeyError`,
a non-string cell raises `AttributeError` (there is no dedicated
instruction-validation error in the code). -/
def extractPrompt (promptEntry : String) (t : Sheet) : Except String String :=
  if pyStrip promptEntry = "" then
    match t.rows.head? with
    | none => .error "KeyError: 0"
    | some r0 =>
      match getCellD t.columns r0 "Name" with
      | .str s => .ok (pyStrip s)
      | _ => .error "AttributeError: strip on non-string"
  else .ok (pyStrip promptEntry)

/-- Embedding of `SEOOptimizerApp.optimize_seo_descriptions` (lines 227-243),
generalised over the per-row transformer.  The body runs under a catch-all
`except`, so every raising path is an `Except.error`: the missing-column
`ValueError` of line 232 (the spec calls it `SchemaError`), the errors of
`extractPrompt`, and the `KeyError` of `df.drop(index=0)` on an empty frame.
`Id` is NOT among the checked columns. -/
def optimizeWith (transform : CellValue → String → String × Bool)
    (promptEntry : String) (t : Sheet) : Except String Sheet :=
  match colIdx t.columns "Description", colIdx t.columns "Name" with
  | some _, some _ =>
    match extractPrompt promptEntry t with
    | .error e => .error e
    | .ok sp =>
      match t.rows with
      | [] => .error "KeyError: 0 not found in axis"
      | _ :: dataRows =>
        .ok ⟨t.columns, dataRows.map (rewriteRow transform t.columns sp)⟩
  | _, _ => .error "ValueError: Missing required columns: Name and Description"

/-- The pipeline with the real row transformer `make_seo_friendly`. -/
def optimize_seo_descriptions (api : String → Except String String)
    (promptEntry : String) (t : Sheet) : Except String Sheet :=
  optimizeWith (make_seo_friendly api) promptEntry t

/-- The mutable fields of `SEOOptimizerApp` (lines 186-189). -/
structure AppState where
  input_path : Option String
  output_path : Option String
  original_df : Option Sheet
  optimized_df : Option Sheet
deriving DecidableEq, Repr

/-- Observable outcome of one `download_file` invocation. -/
inductive DownloadOutcome where
  /-- `messagebox.showerror` was shown; no save dialog, no write. -/
  | errorDialog (msg : String)
  /-- The user cancelled the save dialog; no write. -/
  | cancelled
  /-- The write succeeded and the success dialog was shown. -/
  | saved (path : String)
  /-- The write raised; the exception propagates out of the handler
  (there is no try/except in `download_file`). -/
  | writeFailed (err : String)
deriving DecidableEq, Repr

/-- Embedding of `SEOOptimizerApp.download_file` (lines 252-264).
`savePath` is the result of the save dialog (`none` = cancelled) and
`toExcel` models `DataFrame.to_excel`, which never mutates the frame.
The guard `if not self.optimized_df is not None` parses as
`if (self.optimized_df is None)`.  The method assigns no attribute, so the
state component of the result is always the input state. -/
def download_file (st : AppState) (savePath : Option String)
    (toExcel : Sheet → String → Except String Unit) : AppState × DownloadOutcome :=
  match st.optimized_df with
  | none => (st, .errorDialog "No optimized file available.")
  | some df =>
    match savePath with
    | none => (st, .cancelled)
    | some p =>
      match toExcel df p with
      | .ok _ => (st, .saved p)
      | .error e => (st, .writeFailed e)

/-- Modelled from the spec: the Table Writer (`DataFrame.to_excel` via
openpyxl, an external library not in this repository) serialises the frame
as one header row holding the column names followed by one row per data
record, column order preserved (spec section 4.4). -/
def writeTable (t : Sheet) : List (List CellValue) :=
  t.columns.map CellValue.str :: t.rows

/-- Modelled from the spec: the Table Loader (`pandas.read_excel` /
`read_csv`, external libraries not in this repository) reads the first row
as the column names and the remaining rows as data (spec section 4.2). -/
def readTable (file : List (List CellValue)) : Sheet :=
  match file with
  | [] => ⟨[], []⟩
  | header :: rows => ⟨header.map cellToStr, rows⟩

/-- Modelled from the spec: the stubbed Row Transformer of spec section 8
property 6, which returns its input unchanged and performs no external
call. -/
def stubTransform (d : CellValue) (_sp : String) : String × Bool :=
  (cellToStr d, false)

/-- An external call that always fails (network error). -/
def apiErr : String → Except String String := fun _ => .error "network error"

/-- An external call that always succeeds, returning text with interior
capitals and surrounding whitespace. -/
def apiSEO : String → Except String String := fun _ => .ok " SEO Boost"

/-- Example input table: row zero carries the instruction in its Name cell. -/
def exTable : Sheet :=
  ⟨["Name", "Id", "Description"],
   [[.str "Make catchy", .num 1, .str ""],
    [.str "Widget", .num 2, .str "a small part"]]⟩

/-- `exTable` processed with the failing external call: the data row keeps
its Name and Id, and the description degrades to `pyCapitalize`. -/
def exOut : Sheet :=
  ⟨["Name", "Id", "Description"], [[.str "Widget", .num 2, .str "A small part"]]⟩

/-- `exTable` processed with the stubbed Row Transformer. -/
def exStubOut : Sheet :=
  ⟨["Name", "Id", "Description"], [[.str "Widget", .num 2, .str "a small part"]]⟩

/-- Example table missing only the `Id` column. -/
def tNoId : Sheet :=
  ⟨["Name", "Description"],
   [[.str "Make catchy", .str ""], [.str "Widget", .str "a part"]]⟩

/-- Result of processing `tNoId` with the failing external call. -/
def tNoIdOut : Sheet :=
  ⟨["Name", "Description"], [[.str "Widget", .str "A part"]]⟩

/-- Example table missing the `Name` column. -/
def tNoName : Sheet :=
  ⟨["Id", "Description"], [[.num 1, .str ""], [.num 2, .str "a part"]]⟩

/-- Example table whose row-zero Name cell is a whitespace-only string. -/
def tBlankInstr : Sheet :=
  ⟨["Name", "Id", "Description"],
   [[.str "   ", .num 1, .str "d"], [.str "W", .num 2, .str "x"]]⟩

/-- Result of processing `tBlankInstr` with the failing external call. -/
def tBlankInstrOut : Sheet :=
  ⟨["Name", "Id", "Description"], [[.str "W", .num 2, .str "X"]]⟩

/-- Example table whose row-zero Name cell is a number, not a string. -/
def tNumInstr : Sheet :=
  ⟨["Name", "Id", "Description"], [[.num 7, .num 1, .str "d"]]⟩

/-- An app state with no completed result. -/
def stEmpty : AppState := ⟨none, none, none, none⟩

/-- An app state holding a completed result. -/
def stFull : AppState := ⟨some "in.xlsx", none, some exTable, some exOut⟩

/-- A writer that always fails (unwritable destination). -/
def failWrite : Sheet → String → Except String Unit :=
  fun _ _ => .error "PermissionError"

/-- `getD` after `set` at a different index is unchanged. -/
theorem getD_set_ne (l : List CellValue) (i j : Nat) (v d : CellValue)
    (h : i ≠ j) : (l.set i v).getD j d = l.getD j d := by
  simp [List.getD_eq_getElem?_getD, List.getElem?_set_ne h]

/-- `getD` after `set` at the same in-range index returns the new value. -/
theorem getD_set_self (l : List CellValue) (i : Nat) (v d : CellValue)
    (h : i < l.length) : (l.set i v).getD i d = v := by
  simp [List.getD_eq_getElem?_getD, List.getElem?_set_self', List.getElem?_eq_getElem h]

/-- `getD` past the end of the list is the default. -/
theorem getD_of_le (l : List CellValue) (i : Nat) (d : CellValue)
    (h : l.length ≤ i) : l.getD i d = d := by
  simp [List.getD_eq_getElem?_getD, List.getElem?_eq_none h]

/-- `colIdx` returns an index pointing at the requested column name. -/
theorem colIdx_getD (cols : List String) (c : String) (j : Nat)
    (h : colIdx cols c = some j) : cols.getD j "" = c := by
  induction cols generalizing j with
  | nil => simp [colIdx] at h
  | cons a as ih =>
    by_cases hac : a = c
    · simp [colIdx, hac] at h
      subst h
      simp [hac]
    · simp [colIdx, hac, Option.map_eq_some'] at h
      obtain ⟨j', hj', rfl⟩ := h
      simpa using ih j' hj'

/-- Rewriting the `Description` cell leaves every other column unchanged. -/
theorem rewriteRow_frame (transform : CellValue → String → String × Bool)
    (cols : List String) (sp : String) (row : List CellValue) (c : String)
    (hc : c ≠ "Description") :
    getCellD cols (rewriteRow transform cols sp row) c = getCellD cols row c := by
  unfold rewriteRow
  cases hD : colIdx cols "Description" with
  | none => rfl
  | some i =>
    unfold getCellD
    cases hC : colIdx cols c with
    | none => rfl
    | some j =>
      have hij : i ≠ j := by
        intro hij
        subst hij
        have h1 := colIdx_getD cols "Description" i hD
        have h2 := colIdx_getD cols c i hC
        exact hc (h2.symm.trans h1)
      exact getD_set_ne row i j _ _ hij

/-- `getD` through `map` of an in-range index. -/
theorem getD_map_of_lt (f : List CellValue → List CellValue)
    (l : List (List CellValue)) (i : Nat) (hi : i < l.length) :
    (l.map f).getD i [] = f (l.getD i []) := by
  induction l generalizing i with
  | nil => simp at hi
  | cons a as ih =>
    cases i with
    | zero => simp
    | succ n => simpa using ih n (by simpa using hi)

/-- Decomposition of a successful `optimizeWith` run: both required columns
were found, the table was non-empty, an instruction was extracted, and the
output is the tail of the input rows with each row rewritten. -/
theorem optimizeWith_ok (transform : CellValue → String → String × Bool)
    (pe : String) (t t' : Sheet)
    (h : optimizeWith transform pe t = .ok t') :
    (∃ dI, colIdx t.columns "Description" = some dI) ∧
    (∃ nI, colIdx t.columns "Name" = some nI) ∧
    t.rows ≠ [] ∧
    t'.columns = t.columns ∧
    ∃ sp, extractPrompt pe t = .ok sp ∧
      t'.rows = (t.rows.drop 1).map (rewriteRow transform t.columns sp) := by
  unfold optimizeWith at h
  cases hD : colIdx t.columns "Description" <;> rw [hD] at h
  · cases hN : colIdx t.columns "Name" <;> rw [hN] at h <;> simp at h
  · cases hN : colIdx t.columns "Name" <;> rw [hN] at h
    · simp at h
    · cases hP : extractPrompt pe t <;> rw [hP] at h
      · simp at h
      · cases hR : t.rows <;> rw [hR] at h
        · simp at h
        · rename_i sp r rs
          injection h with h'
          subst h'
          exact ⟨⟨_, rfl⟩, ⟨_, rfl⟩, by simp, rfl, sp, rfl, by simp⟩

/-- Claim C1: for every description that is not a string or is blank after
stripping whitespace, and for every instruction, `make_seo_friendly` returns
exactly the sentinel "No description provided." and performs no external
text-generation call (the call flag is `false`), for every behaviour of the
external service. -/
theorem make_seo_friendly_blank_sentinel (api : String → Except String String)
    (d : CellValue) (sp : String)
    (h : isStrCell d = false ∨ ∃ s, d = .str s ∧ pyStrip s = "") :
    make_seo_friendly api d sp = ("No description provided.", false) := by
  cases d with
  | str s =>
    rcases h with h | ⟨s', hs', hblank⟩
    · simp [isStrCell] at h
    · injection hs' with h'
      subst h'
      simp [make_seo_friendly, hblank]
  | num n => rfl
  | nan => rfl

/-- Claim C1 witness: the whitespace-only description `"   "`. -/
theorem make_seo_friendly_blank_sentinel_witness :
    make_seo_friendly apiErr (.str "   ") "p" = ("No description provided.", false) :=
  make_seo_friendly_blank_sentinel apiErr (.str "   ") "p" (Or.inr ⟨"   ", rfl, rfl⟩)

/-- Claim C2 counterexample: on the non-blank description `"aBC"` with a
failing external call, the code returns `"Abc"` (Python `str.capitalize`
lowercases the rest), not `"ABC"` (the original with its first letter
capitalized and the rest unchanged, `specCapFirst`). -/
theorem failure_return_lowercases_rest :
    (make_seo_friendly apiErr (.str "aBC") "p").fst = "Abc" ∧
    specCapFirst "aBC" = "ABC" ∧
    (make_seo_friendly apiErr (.str "aBC") "p").fst ≠ specCapFirst "aBC" :=
  ⟨rfl, rfl, by decide⟩

/-- Claim C2 as amended: for every non-blank string description and every
instruction, if the external call fails, `make_seo_friendly` catches the
error and returns `pyCapitalize` of the original description (first
character uppercased, remaining characters lowercased); the embedding is a
total function, so no exception propagates. -/
theorem make_seo_friendly_failure_capitalizes (api : String → Except String String)
    (s sp e : String) (hs : ¬ pyStrip s = "")
    (herr : api (sp ++ ": \x27" ++ s ++ "\x27") = .error e) :
    make_seo_friendly api (.str s) sp = (pyCapitalize s, true) := by
  simp [make_seo_friendly, hs, herr]

/-- Claim C2 witness: description `"hello world"` with a failing call. -/
theorem make_seo_friendly_failure_capitalizes_witness :
    make_seo_friendly apiErr (.str "hello world") "p" = (pyCapitalize "hello world", true) :=
  make_seo_friendly_failure_capitalizes apiErr "hello world" "p" "network error"
    (by decide) rfl

/-- Claim C6 counterexample: when the external call succeeds with
`" SEO Boost"`, the code returns `"Seo boost"` (the text is stripped and
`capitalize` lowercases the rest), not `" SEO Boost"` (the returned text
with only its first character capitalized and the rest unchanged). -/
theorem success_return_alters_rest :
    apiSEO ("p" ++ ": \x27great tool\x27") = .ok " SEO Boost" ∧
    (make_seo_friendly apiSEO (.str "great tool") "p").fst = "Seo boost" ∧
    specCapFirst " SEO Boost" = " SEO Boost" ∧
    (make_seo_friendly apiSEO (.str "great tool") "p").fst ≠ specCapFirst " SEO Boost" :=
  ⟨rfl, rfl, rfl, by decide⟩

/-- Claim C6 as amended: for every non-blank string description and every
instruction, when the external call succeeds, `make_seo_friendly` returns
the returned text stripped of surrounding whitespace and then passed
through Python `capitalize` (first character uppercased, remaining
characters lowercased). -/
theorem make_seo_friendly_success_strip_capitalize (api : String → Except String String)
    (s sp content : String) (hs : ¬ pyStrip s = "")
    (hok : api (sp ++ ": \x27" ++ s ++ "\x27") = .ok content) :
    make_seo_friendly api (.str s) sp = (pyCapitalize (pyStrip content), true) := by
  simp [make_seo_friendly, hs, hok]

/-- Claim C6 witness: a succeeding call returning `" SEO Boost"`. -/
theorem make_seo_friendly_success_strip_capitalize_witness :
    make_seo_friendly apiSEO (.str "great tool") "p"
      = (pyCapitalize (pyStrip " SEO Boost"), true) :=
  make_seo_friendly_success_strip_capitalize apiSEO "great tool" "p" " SEO Boost"
    (by decide) rfl

/-- Claim C3: whenever the pipeline produces an output table from an input
with at least one row, the output has exactly one row fewer (row zero, the
instruction carrier, is dropped) and the output rows are, in order, the
rewrites of input rows 1, 2, ... (expressed as a `map` over the tail). -/
theorem optimize_rowcount_and_order (api : String → Except String String)
    (pe : String) (t t' : Sheet)
    (h : optimize_seo_descriptions api pe t = .ok t') (hne : t.rows ≠ []) :
    t'.rows.length + 1 = t.rows.length ∧
    ∃ sp, t'.rows = (t.rows.drop 1).map
      (rewriteRow (make_seo_friendly api) t.columns sp) := by
  obtain ⟨_, _, _, hcols, sp, hsp, hrows⟩ := optimizeWith_ok _ _ _ _ h
  refine ⟨?_, sp, hrows⟩
  rw [hrows]
  have : 0 < t.rows.length := List.length_pos.mpr hne
  simp only [List.length_map, List.length_drop]
  omega

/-- Claim C3 witness: the two-row example table. -/
theorem optimize_rowcount_and_order_witness :
    exOut.rows.length + 1 = exTable.rows.length ∧
    ∃ sp, exOut.rows = (exTable.rows.drop 1).map
      (rewriteRow (make_seo_friendly apiErr) exTable.columns sp) :=
  optimize_rowcount_and_order apiErr "" exTable exOut rfl (by decide)

/-- Claim C7: in every row of the output table, every column other than
`Description` (in particular `Id` and `Name`) holds the same value as the
corresponding input row (input row `i+1` for output row `i`); only the
description cell is rewritten. -/
theorem optimize_frames_other_fields (api : String → Except String String)
    (pe : String) (t t' : Sheet)
    (h : optimize_seo_descriptions api pe t = .ok t')
    (i : Nat) (hi : i < t'.rows.length) (c : String) (hc : c ≠ "Description") :
    getCellD t'.columns (t'.rows.getD i []) c
      = getCellD t.columns (t.rows.getD (i + 1) []) c := by
  obtain ⟨_, _, hne, hcols, sp, hsp, hrows⟩ := optimizeWith_ok _ _ _ _ h
  rw [hcols]
  have hrow : t'.rows.getD i []
      = rewriteRow (make_seo_friendly api) t.columns sp (t.rows.getD (i + 1) []) := by
    rw [hrows]
    cases hR : t.rows with
    | nil => exact absurd hR hne
    | cons r rs =>
      have hi' : i < rs.length := by
        rw [hrows, hR] at hi
        simpa using hi
      simp only [List.drop_succ_cons, List.drop_zero, List.getD_cons_succ]
      exact getD_map_of_lt _ rs i hi'
  rw [hrow]
  exact rewriteRow_frame _ _ _ _ _ hc

/-- Claim C7 witness: the `Id` cell of the surviving example row. -/
theorem optimize_frames_other_fields_witness :
    getCellD exOut.columns (exOut.rows.getD 0 []) "Id"
      = getCellD exTable.columns (exTable.rows.getD 1 []) "Id" :=
  optimize_frames_other_fields apiErr "" exTable exOut rfl 0 (by decide) "Id" (by decide)

/-- Claim C4 counterexample: a table that has `Name` and `Description` but
no `Id` column is not rejected; the pipeline completes and produces a
result table. -/
theorem missing_id_column_not_rejected :
    optimize_seo_descriptions apiErr "" tNoId = .ok tNoIdOut := rfl

/-- Claim C4 as amended: a table missing the `Name` column or the
`Description` column is rejected with the missing-column error (the spec
calls it `SchemaError`) and no result table is produced; the `Id` column is
not checked. -/
theorem missing_name_or_description_rejected (api : String → Except String String)
    (pe : String) (t : Sheet)
    (h : colIdx t.columns "Name" = none ∨ colIdx t.columns "Description" = none) :
    optimize_seo_descriptions api pe t
      = .error "ValueError: Missing required columns: Name and Description" := by
  unfold optimize_seo_descriptions optimizeWith
  rcases h with h | h
  · cases hD : colIdx t.columns "Description" <;> rw [h]
  · rw [h]

/-- Claim C4 witness: the table missing its `Name` column is rejected. -/
theorem missing_name_or_description_rejected_witness :
    optimize_seo_descriptions apiErr "" tNoName
      = .error "ValueError: Missing required columns: Name and Description" :=
  missing_name_or_description_rejected apiErr "" tNoName (Or.inl rfl)

/-- Claim C5 counterexample: a table whose row-zero `Name` cell is the
whitespace-only string `"   "`, processed with no direct instruction,
raises no error at all: the pipeline completes with an empty instruction
and produces a result table. -/
theorem blank_instruction_cell_not_rejected :
    optimize_seo_descriptions apiErr "" tBlankInstr = .ok tBlankInstrOut := rfl

/-- Claim C5 as amended: when the caller supplies no direct instruction and
the row-zero `Name` cell is not a string (for example a number or a missing
cell), the run fails with an `AttributeError` from calling `.strip()` on a
non-string (surfaced as a generic optimization failure, not a dedicated
`InstructionError`) and no result table is produced; a whitespace-only
string cell, by contrast, is accepted and yields an empty instruction. -/
theorem nonstring_instruction_cell_fails (api : String → Except String String)
    (pe : String) (t : Sheet) (dI nI : Nat)
    (hD : colIdx t.columns "Description" = some dI)
    (hN : colIdx t.columns "Name" = some nI)
    (hpe : pyStrip pe = "")
    (r0 : List CellValue) (hr0 : t.rows.head? = some r0)
    (hcell : isStrCell (getCellD t.columns r0 "Name") = false) :
    optimize_seo_descriptions api pe t
      = .error "AttributeError: strip on non-string" := by
  unfold optimize_seo_descriptions optimizeWith
  rw [hD, hN]
  have hP : extractPrompt pe t = .error "AttributeError: strip on non-string" := by
    unfold extractPrompt
    rw [if_pos hpe, hr0]
    show (match getCellD t.columns r0 "Name" with
      | CellValue.str s => Except.ok (pyStrip s)
      | _ => Except.error "AttributeError: strip on non-string")
      = Except.error "AttributeError: strip on non-string"
    cases hcv : getCellD t.columns r0 "Name" with
    | str s => rw [hcv] at hcell; simp [isStrCell] at hcell
    | num n => rfl
    | nan => rfl
  rw [hP]

/-- Claim C5 witness: the table whose row-zero `Name` cell is the number 7. -/
theorem nonstring_instruction_cell_fails_witness :
    optimize_seo_descriptions apiErr "" tNumInstr
      = .error "AttributeError: strip on non-string" :=
  nonstring_instruction_cell_fails apiErr "" tNumInstr 2 0 rfl rfl rfl
    [.num 7, .num 1, .str "d"] rfl rfl

/-- Claim C8: if the write raises on an unwritable destination, the error is
not swallowed (the outcome carries it out of the handler) and the whole
application state, in particular the in-memory result table
`optimized_df`, is unchanged, so the write can be retried. -/
theorem download_write_failure_preserves_state (st : AppState) (df : Sheet)
    (p e : String) (toExcel : Sheet → String → Except String Unit)
    (h1 : st.optimized_df = some df) (h2 : toExcel df p = .error e) :
    download_file st (some p) toExcel = (st, .writeFailed e) := by
  simp [download_file, h1, h2]

/-- Claim C8 witness: a state holding a result and an always-failing writer. -/
theorem download_write_failure_preserves_state_witness :
    download_file stFull (some "out.xlsx") failWrite
      = (stFull, .writeFailed "PermissionError") :=
  download_write_failure_preserves_state stFull exOut "out.xlsx" "PermissionError"
    failWrite rfl rfl

/-- Claim C10: invoking the download action while no completed result table
exists (`optimized_df` is `none`) shows the error dialog, performs no write
(the outcome is the error dialog for every possible writer and save path),
and leaves the whole application state unchanged. -/
theorem download_without_result_reports_error (st : AppState)
    (savePath : Option String) (toExcel : Sheet → String → Except String Unit)
    (h : st.optimized_df = none) :
    download_file st savePath toExcel
      = (st, .errorDialog "No optimized file available.") := by
  simp [download_file, h]

/-- Claim C10 witness: the initial state with no result. -/
theorem download_without_result_reports_error_witness :
    download_file stEmpty (some "out.xlsx") failWrite
      = (stEmpty, .errorDialog "No optimized file available.") :=
  download_without_result_reports_error stEmpty (some "out.xlsx") failWrite rfl

/-- Writing a table and re-loading the written file restores it exactly. -/
theorem readTable_writeTable (t : Sheet) : readTable (writeTable t) = t := by
  cases t with
  | mk cols rows =>
    show Sheet.mk ((cols.map CellValue.str).map cellToStr) rows = Sheet.mk cols rows
    rw [List.map_map]
    exact congrArg (Sheet.mk · rows) (List.map_id' cols)

/-- The stub leaves a string `Description` cell unchanged. -/
theorem rewriteRow_desc_stub (cols : List String) (sp : String)
    (row : List CellValue) (dI : Nat) (s : String)
    (hdI : colIdx cols "Description" = some dI)
    (hcv : row.getD dI CellValue.nan = CellValue.str s)
    (hlt : dI < row.length) :
    getCellD cols (rewriteRow stubTransform cols sp row) "Description"
      = CellValue.str s := by
  unfold rewriteRow
  rw [hdI]
  show getCellD cols
      (row.set dI (CellValue.str (stubTransform (row.getD dI CellValue.nan) sp).fst))
      "Description"
    = CellValue.str s
  rw [hcv]
  simp only [stubTransform, cellToStr, getCellD, hdI]
  exact getD_set_self row dI (CellValue.str s) CellValue.nan hlt

/-- Claim C9: for a result table produced by the pipeline with the stubbed
Row Transformer (which returns its input unchanged), writing it with the
Table Writer and re-loading it with the Table Loader yields a table equal
to the result table, and its `Id`, `Name` and `Description` cells in every
row equal those of the corresponding input data row (input row `i+1` for
output row `i`), provided each input description cell is a string. -/
theorem write_read_roundtrip_with_stub (pe : String) (t t' : Sheet)
    (h : optimizeWith stubTransform pe t = .ok t')
    (hstr : ∀ i, i < t'.rows.length →
      isStrCell (getCellD t.columns (t.rows.getD (i + 1) []) "Description") = true) :
    readTable (writeTable t') = t' ∧
    ∀ i, i < t'.rows.length → ∀ c, c = "Id" ∨ c = "Name" ∨ c = "Description" →
      getCellD (readTable (writeTable t')).columns
          ((readTable (writeTable t')).rows.getD i []) c
        = getCellD t.columns (t.rows.getD (i + 1) []) c := by
  obtain ⟨⟨dI, hdI⟩, _, hne, hcols, sp, hsp, hrows⟩ := optimizeWith_ok _ _ _ _ h
  refine ⟨readTable_writeTable t', ?_⟩
  intro i hi c hc
  rw [readTable_writeTable t', hcols]
  have hrow : t'.rows.getD i []
      = rewriteRow stubTransform t.columns sp (t.rows.getD (i + 1) []) := by
    rw [hrows]
    cases hR : t.rows with
    | nil => exact absurd hR hne
    | cons r rs =>
      have hi' : i < rs.length := by
        rw [hrows, hR] at hi
        simpa using hi
      simp only [List.drop_succ_cons, List.drop_zero, List.getD_cons_succ]
      exact getD_map_of_lt _ rs i hi'
  rw [hrow]
  by_cases hdesc : c = "Description"
  · subst hdesc
    have hsi := hstr i hi
    have hget : getCellD t.columns (t.rows.getD (i + 1) []) "Description"
        = (t.rows.getD (i + 1) []).getD dI CellValue.nan := by
      simp [getCellD, hdI]
    rw [hget] at hsi
    cases hcv : (t.rows.getD (i + 1) []).getD dI CellValue.nan with
    | str s =>
      rw [hget, hcv]
      have hlt : dI < (t.rows.getD (i + 1) []).length := by
        by_contra hge
        rw [getD_of_le _ dI CellValue.nan (Nat.le_of_not_lt hge)] at hcv
        exact CellValue.noConfusion hcv
      exact rewriteRow_desc_stub t.columns sp _ dI s hdI hcv hlt
    | num n => rw [hcv] at hsi; simp [isStrCell] at hsi
    | nan => rw [hcv] at hsi; simp [isStrCell] at hsi
  · exact rewriteRow_frame _ _ _ _ _ hdesc

/-- Claim C9 witness: the example table processed with the stub, written and
re-loaded; the `Description` cell of the surviving row is compared. -/
theorem write_read_roundtrip_with_stub_witness :
    (readTable (writeTable exStubOut) = exStubOut ∧
    ∀ i, i < exStubOut.rows.length → ∀ c, c = "Id" ∨ c = "Name" ∨ c = "Description" →
      getCellD (readTable (writeTable exStubOut)).columns
          ((readTable (writeTable exStubOut)).rows.getD i []) c
        = getCellD exTable.columns (exTable.rows.getD (i + 1) []) c) :=
  write_read_roundtrip_with_stub "" exTable exStubOut rfl (by decide)

end SEOOpt
